import Mathlib

/-!
Verification of the course-recommendation service (`src/app.py`).

The development shallowly embeds the Flask application `app.py`:

* `Json` models the Python/JSON values flowing through the service
  (request bodies, parsed model responses, `jsonify` payloads).
* Python string primitives used by the source (`in`, `split`, `strip`,
  `lower`, truthiness, `dict.get`) are embedded as executable functions.
* `jsonLoads` models the stdlib `json.loads` (external to `src/`) on the
  JSON fragment the service exercises: objects, arrays, strings with the
  single-character escapes, integer numbers, and the three literals.
  Diagnostic messages follow CPython's message kinds without the
  line/column suffix; `\u` escapes and float syntax are outside the
  fragment the claims touch.
* `getCourseRecommendations`, `getFallbackData` and
  `recommendationsRoute` are translated from `app.py` lines 29-103,
  106-162 and 164-187.  The external Gemini capability is a parameter
  `model : String → ModelOutcome` giving, for the prompt it is sent,
  either the reply text or the exception the call raises.
-/

/-- JSON values, as produced by Python's `json.loads` and consumed by
`jsonify`.  Objects keep their members as an ordered association list. -/
inductive Json where
  | null : Json
  | bool : Bool → Json
  | num : Int → Json
  | str : String → Json
  | arr : List Json → Json
  | obj : List (String × Json) → Json

/- ### Python string primitives -/

/-- Auxiliary for `pyContains`: does `p` occur as a contiguous sublist? -/
def listContainsSub (p : List Char) : List Char → Bool
  | [] => p.isEmpty
  | c :: rest => p.isPrefixOf (c :: rest) || listContainsSub p rest

/-- Python's substring test `sub in s`. -/
def pyContains (s sub : String) : Bool :=
  listContainsSub sub.data s.data

/-- Fuel-driven worker for `pySplit`; with fuel at least the length of the
input the result is Python's `s.split(sep)` for a non-empty separator. -/
def splitFuel (p : List Char) : Nat → List Char → List Char → List (List Char)
  | 0, cs, acc => [acc.reverse ++ cs]
  | _ + 1, [], acc => [acc.reverse]
  | fuel + 1, c :: rest, acc =>
    if p.isPrefixOf (c :: rest) && !p.isEmpty then
      acc.reverse :: splitFuel p fuel (List.drop (p.length - 1) rest) []
    else
      splitFuel p fuel rest (c :: acc)

/-- Python's `s.split(sep)` for a non-empty separator `sep`. -/
def pySplit (s sep : String) : List String :=
  (splitFuel sep.data s.data.length s.data []).map String.mk

/-- The characters Python's `str.strip()` removes. -/
def pyWhitespace (c : Char) : Bool :=
  c == ' ' || c == '\t' || c == '\n' || c == '\r' || c == '\x0b' || c == '\x0c'

/-- Python's `s.strip()`. -/
def pyStrip (s : String) : String :=
  String.mk (((s.data.dropWhile pyWhitespace).reverse.dropWhile pyWhitespace).reverse)

/-- Python's `s.lower()` on the ASCII range the service uses. -/
def pyLower (s : String) : String :=
  String.mk (s.data.map Char.toLower)

/-- Indexing `l.get? i` with a default, modelling Python indexing guarded by the
`in` checks of the source (the guarded indices always exist). -/
def listGetD (l : List String) (i : Nat) (d : String) : String :=
  (l.get? i).getD d

/- ### Python truthiness and dict access -/

/-- Python truthiness of a JSON value (`if not subject: ...`). -/
def pyTruthy : Json → Bool
  | Json.null => false
  | Json.bool b => b
  | Json.num n => n != 0
  | Json.str s => s != ""
  | Json.arr xs => !xs.isEmpty
  | Json.obj kvs => !kvs.isEmpty

/-- Truthiness of `os.environ.get(...)`: `None` and `""` are falsy. -/
def apiKeyTruthy : Option String → Bool
  | none => false
  | some s => s != ""

/-- Lookup in a JSON object's member list; the last binding wins, as in a
Python dict built from parsed JSON. -/
def dictGet (kvs : List (String × Json)) (k : String) : Option Json :=
  (kvs.reverse.find? (fun p => p.1 == k)).map (fun p => p.2)

/-- Python's `data.get(k, default)` on an object's members. -/
def dictGetD (kvs : List (String × Json)) (k : String) (d : Json) : Json :=
  (dictGet kvs k).getD d

/-- Keys of a JSON object; non-objects have none. -/
def hasKeyB : Json → String → Bool
  | Json.obj kvs, k => kvs.any (fun p => p.1 == k)
  | _, _ => false

/-- Field access on a JSON object (`none` off objects / absent keys). -/
def objGet : Json → String → Option Json
  | Json.obj kvs, k => dictGet kvs k
  | _, _ => none

/-- Python's `type(v).__name__` for the values a JSON body can be. -/
def pyTypeName : Json → String
  | Json.null => "NoneType"
  | Json.bool _ => "bool"
  | Json.num _ => "int"
  | Json.str _ => "str"
  | Json.arr _ => "list"
  | Json.obj _ => "dict"

mutual
/-- Python's `repr` on JSON values (string quoting simplified: no escaping
inside the quotes; never reached by the claims, which pass strings). -/
def pyRepr : Json → String
  | Json.null => "None"
  | Json.bool true => "True"
  | Json.bool false => "False"
  | Json.num n => toString n
  | Json.str s => "\x27" ++ s ++ "\x27"
  | Json.arr xs => "[" ++ pyReprList xs ++ "]"
  | Json.obj kvs => "\x7b" ++ pyReprMembers kvs ++ "\x7d"

/-- Comma-joined reprs of a list's elements. -/
def pyReprList : List Json → String
  | [] => ""
  | [x] => pyRepr x
  | x :: y :: rest => pyRepr x ++ ", " ++ pyReprList (y :: rest)

/-- Comma-joined reprs of a dict's members. -/
def pyReprMembers : List (String × Json) → String
  | [] => ""
  | [(k, v)] => "\x27" ++ k ++ "\x27: " ++ pyRepr v
  | (k, v) :: y :: rest =>
      "\x27" ++ k ++ "\x27: " ++ pyRepr v ++ ", " ++ pyReprMembers (y :: rest)
end

/-- Python's `str()` as applied by an f-string to an interpolated value. -/
def pyStr : Json → String
  | Json.str s => s
  | v => pyRepr v

/- ### The stdlib JSON parser (`json.loads`) -/

/-- JSON whitespace skipped by the parser. -/
def jsonWs (c : Char) : Bool :=
  c == ' ' || c == '\t' || c == '\n' || c == '\r'

/-- Drop leading JSON whitespace. -/
def skipWs (cs : List Char) : List Char :=
  cs.dropWhile jsonWs

/-- The single-character string escapes of JSON. -/
def escChar (e : Char) : Option Char :=
  if e == '"' then some '"'
  else if e == '\\' then some '\\'
  else if e == '/' then some '/'
  else if e == 'b' then some '\x08'
  else if e == 'f' then some '\x0c'
  else if e == 'n' then some '\n'
  else if e == 'r' then some '\r'
  else if e == 't' then some '\t'
  else none

/-- Scan a JSON string body up to its closing quote, decoding escapes. -/
def parseStrChars : List Char → Except String (List Char × List Char)
  | [] => Except.error "Unterminated string"
  | c :: rest =>
    if c == '"' then Except.ok ([], rest)
    else if c == '\\' then
      match rest with
      | [] => Except.error "Unterminated string"
      | e :: rest2 =>
        match escChar e with
        | some ch =>
          match parseStrChars rest2 with
          | Except.ok (s, r) => Except.ok (ch :: s, r)
          | Except.error m => Except.error m
        | none => Except.error "Invalid \\escape"
    else
      match parseStrChars rest with
      | Except.ok (s, r) => Except.ok (c :: s, r)
      | Except.error m => Except.error m

/-- Scan a run of decimal digits, accumulating their value. -/
def parseDigits : List Char → Nat → Nat × List Char
  | [], acc => (acc, [])
  | c :: rest, acc =>
    if c.isDigit then parseDigits rest (acc * 10 + (c.toNat - '0'.toNat))
    else (acc, c :: rest)

mutual
/-- Parse one JSON value (fuel-driven; fuel bounded by the input length
suffices since every recursive step consumes input). -/
def parseValue : Nat → List Char → Except String (Json × List Char)
  | 0, _ => Except.error "Expecting value"
  | fuel + 1, cs =>
    match skipWs cs with
    | [] => Except.error "Expecting value"
    | c :: rest =>
      if c == '\x7b' then parseMembersStart fuel rest
      else if c == '[' then parseItemsStart fuel rest
      else if c == '"' then
        match parseStrChars rest with
        | Except.ok (s, r) => Except.ok (Json.str (String.mk s), r)
        | Except.error m => Except.error m
      else if c == 'n' then
        if ['n', 'u', 'l', 'l'].isPrefixOf (c :: rest) then
          Except.ok (Json.null, (c :: rest).drop 4)
        else Except.error "Expecting value"
      else if c == 't' then
        if ['t', 'r', 'u', 'e'].isPrefixOf (c :: rest) then
          Except.ok (Json.bool true, (c :: rest).drop 4)
        else Except.error "Expecting value"
      else if c == 'f' then
        if ['f', 'a', 'l', 's', 'e'].isPrefixOf (c :: rest) then
          Except.ok (Json.bool false, (c :: rest).drop 5)
        else Except.error "Expecting value"
      else if c == '-' then
        match rest with
        | d :: rest2 =>
          if d.isDigit then
            let p := parseDigits rest2 (d.toNat - '0'.toNat)
            Except.ok (Json.num (-(Int.ofNat p.1)), p.2)
          else Except.error "Expecting value"
        | [] => Except.error "Expecting value"
      else if c.isDigit then
        let p := parseDigits rest (c.toNat - '0'.toNat)
        Except.ok (Json.num (Int.ofNat p.1), p.2)
      else Except.error "Expecting value"

/-- After the opening brace: an empty object or its first member. -/
def parseMembersStart : Nat → List Char → Except String (Json × List Char)
  | 0, _ => Except.error "Expecting value"
  | fuel + 1, cs =>
    match skipWs cs with
    | '\x7d' :: rest => Except.ok (Json.obj [], rest)
    | other => parseMembers fuel other []

/-- Parse the members of an object, starting at a key. -/
def parseMembers : Nat → List Char → List (String × Json) →
    Except String (Json × List Char)
  | 0, _, _ => Except.error "Expecting value"
  | fuel + 1, cs, acc =>
    match skipWs cs with
    | '"' :: rest =>
      match parseStrChars rest with
      | Except.error m => Except.error m
      | Except.ok (k, r1) =>
        match skipWs r1 with
        | ':' :: r2 =>
          match parseValue fuel r2 with
          | Except.error m => Except.error m
          | Except.ok (v, r3) =>
            match skipWs r3 with
            | ',' :: r4 => parseMembers fuel r4 (acc ++ [(String.mk k, v)])
            | '\x7d' :: r4 => Except.ok (Json.obj (acc ++ [(String.mk k, v)]), r4)
            | _ => Except.error "Expecting \x27,\x27 delimiter"
        | _ => Except.error "Expecting \x27:\x27 delimiter"
    | _ => Except.error "Expecting property name enclosed in double quotes"

/-- After the opening bracket: an empty array or its first item. -/
def parseItemsStart : Nat → List Char → Except String (Json × List Char)
  | 0, _ => Except.error "Expecting value"
  | fuel + 1, cs =>
    match skipWs cs with
    | ']' :: rest => Except.ok (Json.arr [], rest)
    | other => parseItems fuel other []

/-- Parse the items of an array. -/
def parseItems : Nat → List Char → List Json → Except String (Json × List Char)
  | 0, _, _ => Except.error "Expecting value"
  | fuel + 1, cs, acc =>
    match parseValue fuel cs with
    | Except.error m => Except.error m
    | Except.ok (v, r1) =>
      match skipWs r1 with
      | ',' :: r2 => parseItems fuel r2 (acc ++ [v])
      | ']' :: r2 => Except.ok (Json.arr (acc ++ [v]), r2)
      | _ => Except.error "Expecting \x27,\x27 delimiter"
end

/-- Python's `json.loads` on the fragment described in the header:
parse one value, then require only whitespace to remain. -/
def jsonLoads (s : String) : Except String Json :=
  match parseValue (s.data.length + 2) s.data with
  | Except.error m => Except.error m
  | Except.ok (v, rest) =>
    match skipWs rest with
    | [] => Except.ok v
    | _ => Except.error "Extra data"


/- ### The application (`src/app.py`) -/

/-- The behaviour of the external Gemini capability on one call:
the reply text of `model.generate_content(prompt).text`, or the
exception that call (or reading `.text`) raises. -/
inductive ModelOutcome where
  | reply : String → ModelOutcome
  | valueError : String → ModelOutcome
  | otherError : String → ModelOutcome

/-- The message of the `ValueError` raised in `initialize_gemini`
(`app.py` line 23) when `GOOGLE_API_KEY` is absent or empty. -/
def missingKeyMsg : String :=
  "Missing GOOGLE_API_KEY environment variable. Please check your .env file."

/-- The prompt f-string of `get_course_recommendations`
(`app.py` lines 33-70), with the interpolated parameters and the
platform/URL literals kept as separate chunks of the concatenation. -/
def buildPrompt (subject budget skillLevel timeAvailability learningStyle : String) : String :=
  "\n        Act as a course recommendation system. Provide course recommendations based on the following parameters:\n        - Subject: " ++
  subject ++
  "\n        - Budget: " ++
  budget ++
  "\n        - Skill Level: " ++
  skillLevel ++
  "\n        - Time Availability: " ++
  timeAvailability ++
  "\n        - Learning Style: " ++
  learningStyle ++
  "\n\n        ### **Instructions for Course URLs:**\n        - Only recommend courses from real platforms like **" ++
  "Coursera" ++
  ", " ++
  "YouTube" ++
  ", GeeksForGeeks, Udemy, edX, LinkedIn Learning, Pluralsight, or Khan Academy**.\n        - **DO NOT generate fake URLs.** Only provide real, verifiable course links.\n        - If you are unsure about a course URL, mention **\"" ++
  "URL not found" ++
  "\"** instead of a fake link.\n\n        Return your response in the following JSON format:\n        \x7b\n            \"recommendations\": [\n                \x7b\n                    \"course_name\": \"Course name\",\n                    \"platform\": \"Platform name\",\n                    \"cost\": \"Cost in USD\",\n                    \"duration\": \"Estimated completion time\",\n                    \"description\": \"Brief description\",\n                    \"url\": \"Real course link or \x27URL not found\x27\",\n                    \"skill_level\": \"Beginner/Intermediate/Advanced\"\n                \x7d\n            ],\n            \"roadmap\": [\n                \x7b\n                    \"stage\": \"Stage 1: Fundamentals\",\n                    \"description\": \"Description of this stage\",\n                    \"estimated_time\": \"Time to complete this stage\",\n                    \"key_skills\": [\"skill1\", \"skill2\", \"skill3\"],\n                    \"resources\": [\"resource1\", \"resource2\"]\n                \x7d\n            ],\n            \"additional_tips\": \"Additional learning tips\"\n        \x7d\n        "

/-- The code-fence extraction of `get_course_recommendations`
(`app.py` lines 80-86). -/
def extractJson (t : String) : String :=
  if pyContains t "```json" then
    pyStrip (listGetD (pySplit (listGetD (pySplit t "```json") 1 "") "```") 0 "")
  else if pyContains t "```" then
    pyStrip (listGetD (pySplit t "```") 1 "")
  else t

/-- The three course entries of `get_fallback_data`
(`app.py` lines 109-137). -/
def fallbackCourses (subject skillLevel : String) : List Json :=
  [Json.obj
      [("course_name", Json.str (subject ++ " for " ++ skillLevel ++ "s")),
       ("platform", Json.str "Coursera"),
       ("cost", Json.str "$49.99"),
       ("duration", Json.str "8 weeks"),
       ("description", Json.str ("A comprehensive introduction to " ++ subject ++
          " designed for " ++ pyLower skillLevel ++ " learners.")),
       ("url", Json.str "https://coursera.org"),
       ("skill_level", Json.str skillLevel)],
   Json.obj
      [("course_name", Json.str ("Advanced " ++ subject)),
       ("platform", Json.str "Udemy"),
       ("cost", Json.str "$29.99"),
       ("duration", Json.str "10 weeks"),
       ("description", Json.str ("Take your " ++ subject ++
          " skills to the next level with practical projects.")),
       ("url", Json.str "https://udemy.com"),
       ("skill_level", Json.str "Intermediate")],
   Json.obj
      [("course_name", Json.str (subject ++ " Bootcamp")),
       ("platform", Json.str "edX"),
       ("cost", Json.str "$199.99"),
       ("duration", Json.str "12 weeks"),
       ("description", Json.str ("Intensive " ++ subject ++
          " training with industry experts.")),
       ("url", Json.str "https://edx.org"),
       ("skill_level", Json.str "Advanced")]]

/-- The three roadmap stages of `get_fallback_data`
(`app.py` lines 138-160). -/
def fallbackRoadmap (subject : String) : List Json :=
  [Json.obj
      [("stage", Json.str "Stage 1: Fundamentals"),
       ("description", Json.str ("Learn the basic concepts and principles of " ++ subject)),
       ("estimated_time", Json.str "4 weeks"),
       ("key_skills", Json.arr [Json.str "Basic concepts", Json.str "Terminology",
          Json.str "Simple applications"]),
       ("resources", Json.arr [Json.str "Textbooks", Json.str "Online tutorials"])],
   Json.obj
      [("stage", Json.str "Stage 2: Practical Application"),
       ("description", Json.str ("Apply your knowledge of " ++ subject ++
          " to real-world problems")),
       ("estimated_time", Json.str "6 weeks"),
       ("key_skills", Json.arr [Json.str "Problem-solving", Json.str "Tool usage",
          Json.str "Applied techniques"]),
       ("resources", Json.arr [Json.str "Practice exercises", Json.str "Case studies"])],
   Json.obj
      [("stage", Json.str "Stage 3: Advanced Topics"),
       ("description", Json.str ("Explore specialized areas within " ++ subject)),
       ("estimated_time", Json.str "8 weeks"),
       ("key_skills", Json.arr [Json.str "Advanced methodologies",
          Json.str "Specialized tools", Json.str "Research skills"]),
       ("resources", Json.arr [Json.str "Academic papers", Json.str "Expert workshops"])]]

/-- Embedding of `get_fallback_data(subject, skill_level)` (`app.py` lines 106-162). -/
def getFallbackData (subject skillLevel : String) : Json :=
  Json.obj
    [("recommendations", Json.arr (fallbackCourses subject skillLevel)),
     ("roadmap", Json.arr (fallbackRoadmap subject)),
     ("additional_tips", Json.str ("Consider joining online communities related to " ++
        subject ++ " to network with other learners and professionals. Consistent practice is key to mastering this field."))]

/-- The `except ValueError as ve` branch of `get_course_recommendations`
(`app.py` lines 91-97): fallback when the message mentions "API key",
otherwise an error object carrying the message. -/
def exceptValueError (subject skillLevel msg : String) : Json :=
  if pyContains msg "API key" then getFallbackData subject skillLevel
  else Json.obj [("error", Json.str msg)]

/-- Handling of a reply text (`app.py` lines 77-90): extract the
candidate, parse it, return the parsed payload; a parse failure raises
`json.JSONDecodeError`, a subclass of `ValueError`, so it lands in the
`except ValueError` branch. -/
def handleReply (subject skillLevel text : String) : Json :=
  match jsonLoads (extractJson text) with
  | Except.ok v => v
  | Except.error m => exceptValueError subject skillLevel m

/-- Embedding of `get_course_recommendations` (`app.py` lines 29-103).  `apiKey` is
`os.environ.get("GOOGLE_API_KEY")`; `model` is the external Gemini
capability.  A missing/empty key makes `initialize_gemini` raise
`ValueError(missingKeyMsg)`, handled by `exceptValueError`; any other
exception of the model call is handled by the `except Exception`
branch (lines 98-103). -/
def getCourseRecommendations (apiKey : Option String) (model : String → ModelOutcome)
    (subject budget skillLevel timeAvailability learningStyle : String) : Json :=
  if apiKeyTruthy apiKey then
    match model (buildPrompt subject budget skillLevel timeAvailability learningStyle) with
    | ModelOutcome.reply text => handleReply subject skillLevel text
    | ModelOutcome.valueError m => exceptValueError subject skillLevel m
    | ModelOutcome.otherError m =>
      Json.obj [("error", Json.str ("Error getting recommendations: " ++ m))]
  else exceptValueError subject skillLevel missingKeyMsg

/-- The `/get_recommendations` route handler (`app.py` lines 164-187),
over a request body already parsed as JSON.  The result is the pair of
the HTTP status and the `jsonify` payload.  On a non-object body the
`data.get` calls raise `AttributeError`, caught by the handler's
`except Exception` branch as a 500. -/
def recommendationsRoute (apiKey : Option String) (model : String → ModelOutcome)
    (body : Json) : Nat × Json :=
  match body with
  | Json.obj kvs =>
    let subject := dictGetD kvs "subject" (Json.str "")
    let budget := dictGetD kvs "budget" (Json.str "")
    let skillLevel := dictGetD kvs "skillLevel" (Json.str "")
    let timeAvailability := dictGetD kvs "timeAvailability" (Json.str "")
    let learningStyle := dictGetD kvs "learningStyle" (Json.str "")
    if pyTruthy subject then
      (200, getCourseRecommendations apiKey model (pyStr subject) (pyStr budget)
        (pyStr skillLevel) (pyStr timeAvailability) (pyStr learningStyle))
    else (400, Json.obj [("error", Json.str "Subject is required")])
  | _ =>
    (500, Json.obj [("error", Json.str ("Server error: \x27" ++ pyTypeName body ++
      "\x27 object has no attribute \x27get\x27"))])


/- ### Helper lemmas -/

/-- An error object is never equal to any fallback payload: the member
lists have different lengths and different keys. -/
theorem error_obj_ne_fallback (m s k : String) :
    Json.obj [("error", Json.str m)] ≠ getFallbackData s k := by
  simp [getFallbackData]

/-- The fallback payload has no "error" key. -/
theorem fallback_no_error_key (s k : String) :
    hasKeyB (getFallbackData s k) "error" = false := rfl

/-- An error object has no "recommendations" key. -/
theorem error_obj_no_recommendations_key (m : String) :
    hasKeyB (Json.obj [("error", Json.str m)]) "recommendations" = false := rfl

/- ### Claims -/

/-- C4: the extraction step obeys the three-tier precedence: a
fenced block tagged json, an untagged fenced block, and bare text all
yield the candidate string which parses to the mapping a = 1. -/
theorem extraction_three_tier_precedence :
    extractJson "```json\n\x7b\"a\":1\x7d\n```" = "\x7b\"a\":1\x7d" ∧
    extractJson "```\n\x7b\"a\":1\x7d\n```" = "\x7b\"a\":1\x7d" ∧
    extractJson "\x7b\"a\":1\x7d" = "\x7b\"a\":1\x7d" ∧
    jsonLoads "\x7b\"a\":1\x7d" = Except.ok (Json.obj [("a", Json.num 1)]) :=
  ⟨rfl, rfl, rfl, rfl⟩

/-- C8: the fallback generator is pure and deterministic, producing
exactly 3 course entries and exactly 3 roadmap stages obtained by
substituting the arguments into fixed templates; two identical calls
give identical output. -/
theorem fallback_three_courses_three_stages (s k : String) :
    objGet (getFallbackData s k) "recommendations" = some (Json.arr (fallbackCourses s k)) ∧
    (fallbackCourses s k).length = 3 ∧
    objGet (getFallbackData s k) "roadmap" = some (Json.arr (fallbackRoadmap s)) ∧
    (fallbackRoadmap s).length = 3 ∧
    getFallbackData s k = getFallbackData s k :=
  ⟨rfl, rfl, rfl, rfl, rfl⟩

/-- C10: only the first fallback course carries the caller-supplied
skill level; the second and third carry the constants "Intermediate"
and "Advanced" for every input pair. -/
theorem fallback_skill_level_fields (s k : String) :
    ((fallbackCourses s k).get? 0).bind (fun c => objGet c "skill_level") =
      some (Json.str k) ∧
    ((fallbackCourses s k).get? 1).bind (fun c => objGet c "skill_level") =
      some (Json.str "Intermediate") ∧
    ((fallbackCourses s k).get? 2).bind (fun c => objGet c "skill_level") =
      some (Json.str "Advanced") :=
  ⟨rfl, rfl, rfl⟩

/-- C1 (code bug): with no credential configured the resolver does NOT
return the fallback payload; the missing-key `ValueError` message
contains "GOOGLE_API_KEY" but not the probed substring "API key", so
the resolver surfaces the missing configuration as an error object,
for every request and every model behaviour. -/
theorem missing_credential_yields_error_object (model : String → ModelOutcome)
    (s b sl t l : String) :
    getCourseRecommendations none model s b sl t l =
      Json.obj [("error", Json.str missingKeyMsg)] ∧
    ∀ s2 k2, getCourseRecommendations none model s b sl t l ≠ getFallbackData s2 k2 := by
  have h : getCourseRecommendations none model s b sl t l =
      Json.obj [("error", Json.str missingKeyMsg)] := rfl
  exact ⟨h, fun s2 k2 => h ▸ error_obj_ne_fallback missingKeyMsg s2 k2⟩

/-- C2 (code bug): for the body with subject "Python" and skillLevel
"Beginner" and no configured credential, the endpoint answers 200 but
with the missing-key error object, not the fallback payload; the
fallback generator itself would have produced the 3 entries the claim
describes, led by "Python for Beginners" / "Coursera" /
"https://coursera.org". -/
theorem scenario_missing_key_python_beginner (model : String → ModelOutcome) :
    recommendationsRoute none model
        (Json.obj [("subject", Json.str "Python"), ("skillLevel", Json.str "Beginner")]) =
      (200, Json.obj [("error", Json.str missingKeyMsg)]) ∧
    (fallbackCourses "Python" "Beginner").length = 3 ∧
    ((fallbackCourses "Python" "Beginner").get? 0).bind (fun c => objGet c "course_name") =
      some (Json.str "Python for Beginners") ∧
    ((fallbackCourses "Python" "Beginner").get? 0).bind (fun c => objGet c "platform") =
      some (Json.str "Coursera") ∧
    ((fallbackCourses "Python" "Beginner").get? 0).bind (fun c => objGet c "url") =
      some (Json.str "https://coursera.org") :=
  ⟨rfl, rfl, rfl, rfl, rfl⟩

/-- C6: a body whose subject key is missing or bound to the empty string
gets the 400 "Subject is required" response, for every configuration and
every model behaviour (the resolver is never consulted). -/
theorem missing_or_empty_subject_400 (apiKey : Option String)
    (model : String → ModelOutcome) (kvs : List (String × Json))
    (h : dictGet kvs "subject" = none ∨ dictGet kvs "subject" = some (Json.str "")) :
    recommendationsRoute apiKey model (Json.obj kvs) =
      (400, Json.obj [("error", Json.str "Subject is required")]) := by
  rcases h with h | h <;> simp [recommendationsRoute, dictGetD, h, pyTruthy]

/-- Witness for C6: the empty body `\x7b\x7d` yields exactly the 400 response. -/
theorem missing_or_empty_subject_400_witness :
    recommendationsRoute none (fun _ => ModelOutcome.reply "") (Json.obj []) =
      (400, Json.obj [("error", Json.str "Subject is required")]) :=
  missing_or_empty_subject_400 none (fun _ => ModelOutcome.reply "") [] (Or.inl rfl)

/-- C9: a body that is not a JSON object is not answered with the 400
validation response; the field access raises inside the handler and the
endpoint answers 500 with a "Server error: ..." body. -/
theorem non_object_body_500 (apiKey : Option String)
    (model : String → ModelOutcome) (body : Json)
    (h : ∀ kvs, body ≠ Json.obj kvs) :
    recommendationsRoute apiKey model body =
      (500, Json.obj [("error", Json.str ("Server error: \x27" ++ pyTypeName body ++
        "\x27 object has no attribute \x27get\x27"))]) ∧
    recommendationsRoute apiKey model body ≠
      (400, Json.obj [("error", Json.str "Subject is required")]) := by
  have h1 : recommendationsRoute apiKey model body =
      (500, Json.obj [("error", Json.str ("Server error: \x27" ++ pyTypeName body ++
        "\x27 object has no attribute \x27get\x27"))]) := by
    cases body with
    | obj kvs => exact absurd rfl (h kvs)
    | null => rfl
    | bool b => rfl
    | num n => rfl
    | str s => rfl
    | arr xs => rfl
  refine ⟨h1, ?_⟩
  rw [h1]
  intro heq
  have hne : (500 : Nat) = 400 := congrArg Prod.fst heq
  exact absurd hne (by decide)

/-- Witness for C9: the body parsed from JSON `null`. -/
theorem non_object_body_500_witness :
    recommendationsRoute none (fun _ => ModelOutcome.reply "") Json.null =
      (500, Json.obj [("error",
        Json.str "Server error: \x27NoneType\x27 object has no attribute \x27get\x27")]) :=
  (non_object_body_500 none (fun _ => ModelOutcome.reply "") Json.null
    (fun _ hk => Json.noConfusion hk)).1

/-- The resolver's own `except ValueError` constructor never produces an
object carrying both the "error" and the "recommendations" key. -/
theorem exceptValueError_not_both (s k m : String) :
    ¬(hasKeyB (exceptValueError s k m) "error" = true ∧
      hasKeyB (exceptValueError s k m) "recommendations" = true) := by
  unfold exceptValueError
  by_cases hc : pyContains m "API key" = true
  · rw [if_pos hc]
    rintro ⟨ha, _⟩
    rw [fallback_no_error_key] at ha
    exact Bool.noConfusion ha
  · rw [if_neg hc]
    rintro ⟨_, hb⟩
    rw [error_obj_no_recommendations_key] at hb
    exact Bool.noConfusion hb

/-- C5 counterexample: with a configured credential, a model reply that
is itself a JSON object with both keys is returned as-is, so the
produced result carries "error" and "recommendations" simultaneously. -/
theorem passthrough_carries_both_keys :
    getCourseRecommendations (some "k")
        (fun _ => ModelOutcome.reply "\x7b\"error\": \"x\", \"recommendations\": []\x7d")
        "Python" "" "" "" "" =
      Json.obj [("error", Json.str "x"), ("recommendations", Json.arr [])] ∧
    hasKeyB (getCourseRecommendations (some "k")
        (fun _ => ModelOutcome.reply "\x7b\"error\": \"x\", \"recommendations\": []\x7d")
        "Python" "" "" "" "") "error" = true ∧
    hasKeyB (getCourseRecommendations (some "k")
        (fun _ => ModelOutcome.reply "\x7b\"error\": \"x\", \"recommendations\": []\x7d")
        "Python" "" "" "" "") "recommendations" = true :=
  ⟨rfl, rfl, rfl⟩

/-- A reply is handled either by returning the parsed payload or by the
`except ValueError` constructor on the parse diagnostic. -/
theorem handleReply_cases (s k text : String) :
    (∃ v, jsonLoads (extractJson text) = Except.ok v ∧ handleReply s k text = v) ∨
    (∃ m, jsonLoads (extractJson text) = Except.error m ∧
      handleReply s k text = exceptValueError s k m) := by
  unfold handleReply
  cases hj : jsonLoads (extractJson text) with
  | ok v => exact Or.inl ⟨v, rfl, rfl⟩
  | error m => exact Or.inr ⟨m, rfl, rfl⟩

/-- C5 amended: whenever a produced result carries both the "error" and
the "recommendations" key, it is the parsed model payload returned
as-is; every result the resolver constructs itself (error objects and
fallback data) never carries both. -/
theorem both_keys_only_from_passthrough (apiKey : Option String)
    (model : String → ModelOutcome) (s b sl t l : String)
    (h1 : hasKeyB (getCourseRecommendations apiKey model s b sl t l) "error" = true)
    (h2 : hasKeyB (getCourseRecommendations apiKey model s b sl t l) "recommendations" = true) :
    ∃ text v, model (buildPrompt s b sl t l) = ModelOutcome.reply text ∧
      jsonLoads (extractJson text) = Except.ok v ∧
      getCourseRecommendations apiKey model s b sl t l = v := by
  by_cases hk : apiKeyTruthy apiKey = true
  case neg =>
    have hr : getCourseRecommendations apiKey model s b sl t l =
        exceptValueError s sl missingKeyMsg := by
      unfold getCourseRecommendations
      rw [if_neg hk]
    rw [hr] at h1 h2
    exact absurd ⟨h1, h2⟩ (exceptValueError_not_both s sl missingKeyMsg)
  case pos =>
    cases hm : model (buildPrompt s b sl t l) with
    | reply text =>
      have hr : getCourseRecommendations apiKey model s b sl t l = handleReply s sl text := by
        unfold getCourseRecommendations
        rw [if_pos hk, hm]
      rcases handleReply_cases s sl text with ⟨v, hj, hv⟩ | ⟨m, hj, hv⟩
      · exact ⟨text, v, rfl, hj, by rw [hr, hv]⟩
      · rw [hr, hv] at h1 h2
        exact absurd ⟨h1, h2⟩ (exceptValueError_not_both s sl m)
    | valueError m =>
      have hr : getCourseRecommendations apiKey model s b sl t l =
          exceptValueError s sl m := by
        unfold getCourseRecommendations
        rw [if_pos hk, hm]
      rw [hr] at h1 h2
      exact absurd ⟨h1, h2⟩ (exceptValueError_not_both s sl m)
    | otherError m =>
      have hr : getCourseRecommendations apiKey model s b sl t l =
          Json.obj [("error", Json.str ("Error getting recommendations: " ++ m))] := by
        unfold getCourseRecommendations
        rw [if_pos hk, hm]
      rw [hr] at h2
      exact Bool.noConfusion h2

/-- Witness for the amended C5, at the counterexample's input. -/
theorem both_keys_only_from_passthrough_witness :
    ∃ text v,
      (fun _ : String => ModelOutcome.reply "\x7b\"error\": \"x\", \"recommendations\": []\x7d")
          (buildPrompt "Python" "" "" "" "") = ModelOutcome.reply text ∧
      jsonLoads (extractJson text) = Except.ok v ∧
      getCourseRecommendations (some "k")
          (fun _ => ModelOutcome.reply "\x7b\"error\": \"x\", \"recommendations\": []\x7d")
          "Python" "" "" "" "" = v :=
  both_keys_only_from_passthrough (some "k")
    (fun _ => ModelOutcome.reply "\x7b\"error\": \"x\", \"recommendations\": []\x7d")
    "Python" "" "" "" "" rfl rfl

/-- C3 counterexample: with a configured credential, a model-call
`ValueError` whose message mentions "API key" (as the provider's
invalid-key errors do) is converted to fallback data, not surfaced as
an `\x7berror: ...\x7d` object. -/
theorem api_key_fault_converted_to_fallback :
    getCourseRecommendations (some "k")
        (fun _ => ModelOutcome.valueError "API key not valid. Please pass a valid API key.")
        "Python" "" "Beginner" "" "" =
      getFallbackData "Python" "Beginner" :=
  rfl

/-- C3 amended: with a configured credential and a non-empty subject,
a parse failure, a model-call `ValueError`, or any other model-call
exception is surfaced to the caller as an error object with status 200
and is never the fallback payload — provided the fault's diagnostic
does not contain the substring "API key" (a `ValueError` mentioning
"API key" is instead converted to fallback data). -/
theorem resolver_faults_surface_as_errors (k : String) (model : String → ModelOutcome)
    (s b sl t l : String)
    (hk : apiKeyTruthy (some k) = true) (hs : pyTruthy (Json.str s) = true) :
    (∀ text m, model (buildPrompt s b sl t l) = ModelOutcome.reply text →
        jsonLoads (extractJson text) = Except.error m →
        pyContains m "API key" = false →
        recommendationsRoute (some k) model
            (Json.obj [("subject", Json.str s), ("budget", Json.str b),
              ("skillLevel", Json.str sl), ("timeAvailability", Json.str t),
              ("learningStyle", Json.str l)]) =
          (200, Json.obj [("error", Json.str m)])) ∧
    (∀ m, model (buildPrompt s b sl t l) = ModelOutcome.valueError m →
        pyContains m "API key" = false →
        recommendationsRoute (some k) model
            (Json.obj [("subject", Json.str s), ("budget", Json.str b),
              ("skillLevel", Json.str sl), ("timeAvailability", Json.str t),
              ("learningStyle", Json.str l)]) =
          (200, Json.obj [("error", Json.str m)])) ∧
    (∀ m, model (buildPrompt s b sl t l) = ModelOutcome.otherError m →
        recommendationsRoute (some k) model
            (Json.obj [("subject", Json.str s), ("budget", Json.str b),
              ("skillLevel", Json.str sl), ("timeAvailability", Json.str t),
              ("learningStyle", Json.str l)]) =
          (200, Json.obj [("error", Json.str ("Error getting recommendations: " ++ m))])) ∧
    (∀ m s2 k2, Json.obj [("error", Json.str m)] ≠ getFallbackData s2 k2) := by
  have hroute : recommendationsRoute (some k) model
      (Json.obj [("subject", Json.str s), ("budget", Json.str b),
        ("skillLevel", Json.str sl), ("timeAvailability", Json.str t),
        ("learningStyle", Json.str l)]) =
      (200, getCourseRecommendations (some k) model s b sl t l) := by
    show (if pyTruthy (Json.str s) = true then
        (200, getCourseRecommendations (some k) model s b sl t l)
      else (400, Json.obj [("error", Json.str "Subject is required")])) =
      (200, getCourseRecommendations (some k) model s b sl t l)
    rw [if_pos hs]
  refine ⟨?_, ?_, ?_, fun m s2 k2 => error_obj_ne_fallback m s2 k2⟩
  · intro text m hm hj hc
    rw [hroute]
    have hr1 : getCourseRecommendations (some k) model s b sl t l = handleReply s sl text := by
      unfold getCourseRecommendations
      rw [if_pos hk, hm]
    have hr2 : handleReply s sl text = exceptValueError s sl m := by
      unfold handleReply
      rw [hj]
    have hr3 : exceptValueError s sl m = Json.obj [("error", Json.str m)] := by
      simp [exceptValueError, hc]
    rw [hr1, hr2, hr3]
  · intro m hm hc
    rw [hroute]
    have hr1 : getCourseRecommendations (some k) model s b sl t l =
        exceptValueError s sl m := by
      unfold getCourseRecommendations
      rw [if_pos hk, hm]
    have hr3 : exceptValueError s sl m = Json.obj [("error", Json.str m)] := by
      simp [exceptValueError, hc]
    rw [hr1, hr3]
  · intro m hm
    rw [hroute]
    have hr1 : getCourseRecommendations (some k) model s b sl t l =
        Json.obj [("error", Json.str ("Error getting recommendations: " ++ m))] := by
      unfold getCourseRecommendations
      rw [if_pos hk, hm]
    rw [hr1]

/-- Witness for the amended C3: the spec's scenario — a configured
credential and the unparseable reply "not json at all" — yields 200
with the parse diagnostic as the error object. -/
theorem resolver_faults_surface_as_errors_witness :
    recommendationsRoute (some "k") (fun _ => ModelOutcome.reply "not json at all")
        (Json.obj [("subject", Json.str "Python"), ("budget", Json.str ""),
          ("skillLevel", Json.str ""), ("timeAvailability", Json.str ""),
          ("learningStyle", Json.str "")]) =
      (200, Json.obj [("error", Json.str "Expecting value")]) :=
  (resolver_faults_surface_as_errors "k" (fun _ => ModelOutcome.reply "not json at all")
      "Python" "" "" "" "" rfl rfl).1 "not json at all" "Expecting value" rfl rfl rfl

/- ### C7: the prompt builder -/

/-- Python's substring relation `sub in big`, as a proposition: `big`
decomposes around an occurrence of `sub`. -/
def strContains (big sub : String) : Prop :=
  ∃ pre post, big = pre ++ (sub ++ post)

/-- String concatenation is associative. -/
theorem strAppend_assoc (a b c : String) : a ++ b ++ c = a ++ (b ++ c) := by
  cases a with
  | mk da =>
    cases b with
    | mk db =>
      cases c with
      | mk dc =>
        show String.mk (da ++ db ++ dc) = String.mk (da ++ (db ++ dc))
        rw [List.append_assoc]

/-- Appending the empty string is the identity. -/
theorem strAppend_nil (a : String) : a ++ "" = a := by
  cases a with
  | mk da =>
    show String.mk (da ++ []) = String.mk da
    rw [List.append_nil]

/-- A string contains its own trailing chunk: `x ++ sub` contains `sub`. -/
theorem strContains_tail (x sub : String) : strContains (x ++ sub) sub :=
  ⟨x, "", by rw [strAppend_nil]⟩

/-- Containment is preserved by appending text on the right. -/
theorem strContains_append_right (y : String) {x sub : String} (h : strContains x sub) :
    strContains (x ++ y) sub := by
  obtain ⟨p, q, hx⟩ := h
  refine ⟨p, q ++ y, ?_⟩
  rw [hx, strAppend_assoc, strAppend_assoc]

/-- C7: the prompt builder is a total function of its five string
arguments whose output contains the literal substrings "Coursera",
"YouTube" and "URL not found", and each of the five inputs verbatim. -/
theorem prompt_contains_inputs_and_literals (s b sl t l : String) :
    strContains (buildPrompt s b sl t l) "Coursera" ∧
    strContains (buildPrompt s b sl t l) "YouTube" ∧
    strContains (buildPrompt s b sl t l) "URL not found" ∧
    strContains (buildPrompt s b sl t l) s ∧
    strContains (buildPrompt s b sl t l) b ∧
    strContains (buildPrompt s b sl t l) sl ∧
    strContains (buildPrompt s b sl t l) t ∧
    strContains (buildPrompt s b sl t l) l := by
  unfold buildPrompt
  refine ⟨?_, ?_, ?_, ?_, ?_, ?_, ?_, ?_⟩
  · iterate 5 apply strContains_append_right
    exact strContains_tail _ _
  · iterate 3 apply strContains_append_right
    exact strContains_tail _ _
  · iterate 1 apply strContains_append_right
    exact strContains_tail _ _
  · iterate 15 apply strContains_append_right
    exact strContains_tail _ _
  · iterate 13 apply strContains_append_right
    exact strContains_tail _ _
  · iterate 11 apply strContains_append_right
    exact strContains_tail _ _
  · iterate 9 apply strContains_append_right
    exact strContains_tail _ _
  · iterate 7 apply strContains_append_right
    exact strContains_tail _ _
